import Mathlib

/-!
Shallow embedding of `src/god.c` (digitalxs/godcode).

Machine doubles are modelled as exact rationals (`ℚ`); C `int`, `long` and
`time_t` are modelled as `ℤ`.  Nullable pointers are modelled with `Option`.
The allocation-failure paths of the C code (every `malloc`/`realloc` NULL
branch) are not modelled: the embedding follows the success path, which is
the behaviour the claims are about.  Function-pointer fields of the C
structs (`naturalLaws.evolve`, `formPrayer`, `makeChoice`, and all of
`God`'s function pointers) always hold the same fixed functions in the
source, so they carry no data and are omitted from the records.
IEEE special values can arise in this program in exactly one place: the
division `entropyLevel / maxEntropy` in `calculateEndOfWorld` (the source
performs it unconditionally, so `maxEntropy = 0` yields ±inf or NaN).
That division and every operation downstream of it are therefore computed
in `EDouble`, rationals extended with ±inf and NaN under the IEEE-754 /
C99 rules (including `fmax`/`fmin` returning the non-NaN operand).
Signed zeros are not modelled: no operation in this program distinguishes
`-0.0` from `0.0` in a way that affects any compared or returned value,
and the literal `0.0` divisors and operands of the source are positive
zeros.  Every other intermediate quantity of the program is provably
finite and stays in `ℚ`.
-/

attribute [local semireducible] Rat.add Rat.sub Rat.mul Rat.inv Rat.ofScientific

/-- `MAX_NAME_LENGTH` from god.c. -/
def MAX_NAME_LENGTH : Nat := 256

/-- `SECONDS_PER_DAY` from god.c: `24 * 60 * 60`. -/
def SECONDS_PER_DAY : Int := 24 * 60 * 60

/-- `LONG_MAX` on the 64-bit platform the source targets. -/
def LONG_MAX : Int := 9223372036854775807

/-- `ESCHATOLOGICAL_CONSTANT = 0.12345` from `calculateEndOfWorld`. -/
def ESCHATOLOGICAL_CONSTANT : ℚ := 12345 / 100000

/-- `DBL_MAX`, the value of `INFINITY_REPRESENTATION` in god.c. -/
def INFINITY_REPRESENTATION : ℚ := (2 ^ 53 - 1) * 2 ^ 971

/-- `struct TimePoint` from god.c. -/
structure TimePoint where
  temporalCoordinate : ℚ
  isInEternity : Bool
deriving Repr, DecidableEq

/-- `struct ConsciousEntity` from god.c.  `consciousness` and `freeWill`
are the doubles stored behind the `void*` fields; the two function-pointer
fields are omitted (always `formPrayer` / `entityMakeChoice`). -/
structure ConsciousEntity where
  consciousness : ℚ
  freeWill : ℚ
  name : String
  uniqueId : Int
deriving Repr, DecidableEq

/-- `struct Universe` from god.c.  `matter` and `energy` are the single
doubles behind the `void*` fields; `spacetime` is the 4-double block; the
`naturalLaws` function pointer is omitted. -/
structure Universe where
  physicalConstants : List ℚ
  numConstants : Int
  matter : ℚ
  energy : ℚ
  spacetime : ℚ × ℚ × ℚ × ℚ
  consciousEntities : List ConsciousEntity
  numEntities : Int
  creationTime : Int
  totalLifespanDays : Int
  entropyLevel : ℚ
  maxEntropy : ℚ
deriving Repr, DecidableEq

/-- The data fields of `struct God` from god.c (scalar fields only; the
symbolic 1-byte allocations and the function pointers carry no data). -/
structure God where
  infinityMeasure : ℚ
  isSeparable : Bool
  entropy : ℚ
  value : ℚ
  trinityCount : Int
deriving Repr, DecidableEq

/-- The scalar content `createGod` puts into a fresh `God`. -/
def createGod : God :=
  { infinityMeasure := INFINITY_REPRESENTATION
    isSeparable := false
    entropy := 0
    value := INFINITY_REPRESENTATION
    trinityCount := 1 }

/-- The value written into cell `i` of the array built by
`divinePhysicalConstants`: cells 0–3 are the four named physical constants,
every later cell is `1.0 / (i + 1)`. -/
def constAt (i : Nat) : ℚ :=
  if i = 0 then 299792458
  else if i = 1 then 662607015 / 10 ^ 42
  else if i = 2 then 667430 / 10 ^ 16
  else if i = 3 then 88541878128 / 10 ^ 22
  else 1 / ((i : ℚ) + 1)

/-- `divinePhysicalConstants` from god.c: `NULL` (here `none`) for
`numConstants <= 0`, otherwise the array whose cell `i` holds `constAt i`
(cell 0 is always written, cells 1–3 under their `numConstants > k` guards,
cells from 4 up by the fill loop — together every cell of the array). -/
def divinePhysicalConstants (numConstants : Int) : Option (List ℚ) :=
  if numConstants ≤ 0 then none
  else some ((List.range numConstants.toNat).map constAt)

/-- `divineCreateUniverse` from god.c, success path; the call to `time()`
is modelled by the explicit `now` argument. -/
def divineCreateUniverse (now : Int) : Universe :=
  { physicalConstants := (List.range 30).map constAt
    numConstants := 30
    matter := 1
    energy := 1
    spacetime := (0, 0, 0, 0)
    consciousEntities := []
    numEntities := 0
    creationTime := now
    totalLifespanDays := 5000 * 365
    entropyLevel := 618 / 1000
    maxEntropy := 1 }

/-- C string containment à la `strstr`: `true` iff `needle` occurs as a
contiguous run inside `hay`. -/
def containsSub (needle : List Char) : List Char → Bool
  | [] => needle.isEmpty
  | c :: rest => needle.isPrefixOf (c :: rest) || containsSub needle rest

/-- `strstr(hay, needle) != NULL` from god.c, on the character data. -/
def strstrHit (hay needle : String) : Bool :=
  containsSub needle.data hay.data

/-- The deep copy performed by `divineMiracle` on a non-NULL universe:
every block is duplicated (`physicalConstants` by a
`memcpy` of `numConstants` doubles, hence the `take`), the scalar fields
are copied verbatim, the entity registry is deliberately left empty, and
finally `entropyLevel *= 0.9`. -/
def divineMiracleCopy (u : Universe) : Universe :=
  { physicalConstants := u.physicalConstants.take u.numConstants.toNat
    numConstants := u.numConstants
    matter := u.matter
    energy := u.energy
    spacetime := u.spacetime
    consciousEntities := []
    numEntities := 0
    creationTime := u.creationTime
    totalLifespanDays := u.totalLifespanDays
    entropyLevel := u.entropyLevel * (9 / 10)
    maxEntropy := u.maxEntropy }

/-- `divineMiracle` from god.c: `NULL` in, `NULL` out; the `TimePoint`
argument is unused (`(void)t` in the source). -/
def divineMiracle (u : Option Universe) (t : Option TimePoint) : Option Universe :=
  match u, t with
  | none, _ => none
  | some w, _ => some (divineMiracleCopy w)

/-- `divinePrayerResponse` from god.c: NULL-checks its three arguments,
delegates the copy to `divineMiracle(u, NULL)`, then bumps
`totalLifespanDays` by 1 and, when the prayer contains `"guide me"`,
multiplies `entropyLevel` by a further 0.99. -/
def divinePrayerResponse (pray_er : Option ConsciousEntity) (prayer : Option String)
    (u : Option Universe) : Option Universe :=
  match pray_er, prayer, u with
  | some _, some p, some w =>
    match divineMiracle (some w) none with
    | none => none
    | some n0 =>
      let n1 := { n0 with totalLifespanDays := n0.totalLifespanDays + 1 }
      if strstrHit p "guide me" then
        some { n1 with entropyLevel := n1.entropyLevel * (99 / 100) }
      else some n1
  | _, _, _ => none

/-- `divineCompletion` from god.c: NULL-check, deep copy through
`divineMiracle(u, NULL)`, then `entropyLevel = maxEntropy`. -/
def divineCompletion (u : Option Universe) : Option Universe :=
  match u with
  | none => none
  | some w =>
    match divineMiracle (some w) none with
    | none => none
    | some c => some { c with entropyLevel := c.maxEntropy }

/-- Truncation toward zero, the semantics of C's `(long)` cast from a
double in range. -/
def qtrunc (x : ℚ) : Int :=
  if 0 ≤ x then ⌊x⌋ else ⌈x⌉

/-- C `fmod`: `x - trunc(x / y) * y`. -/
def qfmod (x y : ℚ) : ℚ :=
  x - (qtrunc (x / y) : ℚ) * y

/-- An IEEE double as seen by this program: a finite value (kept exact as
a rational), one of the two infinities, or NaN.  Signed zeros are not
distinguished (see the module comment). -/
inductive EDouble where
  | fin (q : ℚ)
  | posInf
  | negInf
  | nan
deriving Repr, DecidableEq

/-- IEEE negation on `EDouble`. -/
def EDouble.neg : EDouble → EDouble
  | fin a => fin (-a)
  | posInf => negInf
  | negInf => posInf
  | nan => nan

/-- IEEE addition: NaN is absorbing, opposite infinities give NaN. -/
def EDouble.add : EDouble → EDouble → EDouble
  | nan, _ => nan
  | _, nan => nan
  | fin a, fin b => fin (a + b)
  | fin _, posInf => posInf
  | fin _, negInf => negInf
  | posInf, fin _ => posInf
  | negInf, fin _ => negInf
  | posInf, posInf => posInf
  | negInf, negInf => negInf
  | posInf, negInf => nan
  | negInf, posInf => nan

/-- IEEE subtraction, `a - b = a + (-b)` (the NaN and infinity cases
coincide with the direct rules). -/
def EDouble.sub (a b : EDouble) : EDouble :=
  a.add b.neg

/-- IEEE multiplication: NaN is absorbing, `0 × ±inf` gives NaN,
otherwise infinities follow the sign rules. -/
def EDouble.mul : EDouble → EDouble → EDouble
  | nan, _ => nan
  | _, nan => nan
  | fin a, fin b => fin (a * b)
  | fin a, posInf => if a = 0 then nan else if 0 < a then posInf else negInf
  | fin a, negInf => if a = 0 then nan else if 0 < a then negInf else posInf
  | posInf, fin b => if b = 0 then nan else if 0 < b then posInf else negInf
  | negInf, fin b => if b = 0 then nan else if 0 < b then negInf else posInf
  | posInf, posInf => posInf
  | posInf, negInf => negInf
  | negInf, posInf => negInf
  | negInf, negInf => posInf

/-- IEEE division: NaN is absorbing; a finite value over (positive) zero
gives `±inf` by the sign of the numerator and `0/0` gives NaN; a finite
value over an infinity gives 0; an infinity over a finite value keeps the
sign rules; `inf/inf` gives NaN. -/
def EDouble.div : EDouble → EDouble → EDouble
  | nan, _ => nan
  | _, nan => nan
  | fin a, fin b =>
    if b = 0 then (if a = 0 then nan else if 0 < a then posInf else negInf)
    else fin (a / b)
  | fin _, posInf => fin 0
  | fin _, negInf => fin 0
  | posInf, fin b => if 0 ≤ b then posInf else negInf
  | negInf, fin b => if 0 ≤ b then negInf else posInf
  | posInf, _ => nan
  | negInf, _ => nan

/-- C99 `fmax`: if one operand is NaN the other is returned, otherwise
the larger operand. -/
def EDouble.fmax : EDouble → EDouble → EDouble
  | nan, b => b
  | a, nan => a
  | posInf, _ => posInf
  | _, posInf => posInf
  | negInf, b => b
  | a, negInf => a
  | fin a, fin b => fin (max a b)

/-- C99 `fmin`: if one operand is NaN the other is returned, otherwise
the smaller operand. -/
def EDouble.fmin : EDouble → EDouble → EDouble
  | nan, b => b
  | a, nan => a
  | negInf, _ => negInf
  | _, negInf => negInf
  | posInf, b => b
  | a, posInf => a
  | fin a, fin b => fin (min a b)

/-- C `(long)` cast of a double: truncation toward zero for a finite
value in range.  In this program the cast's operand has been clamped by
`fmax(0.0, ·)` then `fmin((double)LONG_MAX, ·)` and so is always finite;
the non-finite branches are unreachable here (casting them is undefined
behaviour in C) and their value is immaterial. -/
def longOfEDouble : EDouble → Int
  | .fin q => qtrunc q
  | _ => 0

/-- Body of `calculateEndOfWorld` from god.c for a non-NULL universe; the
`time(&currentTime)` call is modelled by the explicit `currentTime`
argument.  The constants loop runs over the first
`min(numConstants, 10)` array cells, accumulating left to right.  The
entropy ratio is an IEEE division (`maxEntropy = 0` yields ±inf or NaN),
so it and the final combination are computed in `EDouble`; every other
intermediate value is finite and stays in `ℚ`. -/
def endOfWorldCalc (currentTime : Int) (u : Universe) : Int :=
  let timeElapsedSeconds : ℚ := ((currentTime - u.creationTime : Int) : ℚ)
  let daysSinceCreation : ℚ := timeElapsedSeconds / (SECONDS_PER_DAY : ℚ)
  let entropyQuot : EDouble := EDouble.div (EDouble.fin u.entropyLevel) (EDouble.fin u.maxEntropy)
  let daysRemaining : ℚ := max 0 ((u.totalLifespanDays : ℚ) - daysSinceCreation)
  let firstConstants := u.physicalConstants.take (min u.numConstants.toNat 10)
  let rawInfluence : ℚ :=
    firstConstants.enum.foldl
      (fun acc p => acc + (p.2 / (|p.2| + 1)) / ((p.1 : ℚ) + 1)) 0
  let physicalInfluence : ℚ := qfmod |rawInfluence| 100
  let consciousnessInfluence : ℚ := min 1000 ((u.numEntities : ℚ) * ESCHATOLOGICAL_CONSTANT)
  let result : EDouble := EDouble.fmax (EDouble.fin 0)
    (EDouble.add
      (EDouble.sub
        (EDouble.mul (EDouble.fin daysRemaining) (EDouble.sub (EDouble.fin 1) entropyQuot))
        (EDouble.mul (EDouble.fin physicalInfluence) entropyQuot))
      (EDouble.fin consciousnessInfluence))
  longOfEDouble (EDouble.fmin (EDouble.fin (LONG_MAX : ℚ)) result)

/-- `calculateEndOfWorld` from god.c: `-1` for a NULL universe, otherwise
the computation of `endOfWorldCalc`. -/
def calculateEndOfWorld (currentTime : Int) (univ : Option Universe) : Int :=
  match univ with
  | none => -1
  | some u => endOfWorldCalc currentTime u

/-- `createConsciousEntity` from god.c: NULL-checks `creator` and `name`
(the universe is passed by value here, so its NULL-check has no analogue),
rejects names of length `>= MAX_NAME_LENGTH`, then builds the entity with
`consciousness = freeWill = 1.0` and `uniqueId = numEntities + 1` and
appends it to the universe's registry.  The result pairs the updated
universe (the C code mutates it in place) with the created entity, `none`
standing for the NULL returns. -/
def createConsciousEntity (creator : Option God) (u : Universe) (name : Option String) :
    Universe × Option ConsciousEntity :=
  match creator with
  | none => (u, none)
  | some _ =>
    match name with
    | none => (u, none)
    | some nm =>
      if MAX_NAME_LENGTH ≤ nm.length then (u, none)
      else
        let e : ConsciousEntity :=
          { consciousness := 1, freeWill := 1, name := nm, uniqueId := u.numEntities + 1 }
        ({ u with consciousEntities := u.consciousEntities ++ [e],
                  numEntities := u.numEntities + 1 },
         some e)

/-- Sequential appends: fold `createConsciousEntity` over a list of names
(the universe threaded through, as the C caller does in `main`). -/
def appendNames (g : God) (u : Universe) : List String → Universe
  | [] => u
  | nm :: rest => appendNames g (createConsciousEntity (some g) u (some nm)).1 rest

/-- The id sequence `[1, 2, ..., n]` (as C ints). -/
def idList (n : Nat) : List Int :=
  (List.range n).map fun i => (i : Int) + 1

/-- The entity record `createConsciousEntity` builds on its success path
(before the registry append): default scalars 1.0 and the next
sequential id. -/
def newEntity (u : Universe) (nm : String) : ConsciousEntity :=
  { consciousness := 1, freeWill := 1, name := nm, uniqueId := u.numEntities + 1 }

/-- The universe after `createConsciousEntity` grows the registry by one
slot and bumps `numEntities`. -/
def grownUniverse (u : Universe) (nm : String) : Universe :=
  { u with consciousEntities := u.consciousEntities ++ [newEntity u nm],
           numEntities := u.numEntities + 1 }

/-- A concrete conscious entity, as built inside a fresh universe. -/
def entity0 : ConsciousEntity :=
  { consciousness := 1, freeWill := 1, name := "Human1", uniqueId := 1 }

/-- A well-formed universe whose `maxEntropy` is 0 (degenerate entropy
denominator), used to probe `calculateEndOfWorld`. -/
def zeroMaxEntropyUniverse : Universe :=
  { physicalConstants := []
    numConstants := 0
    matter := 1
    energy := 1
    spacetime := (0, 0, 0, 0)
    consciousEntities := []
    numEntities := 0
    creationTime := 0
    totalLifespanDays := 10
    entropyLevel := 1
    maxEntropy := 0 }

/-- A 300-character entity name, above the `MAX_NAME_LENGTH` bound. -/
def longName : String := String.mk (List.replicate 300 'a')

lemma qtrunc_nonneg {x : ℚ} (h : 0 ≤ x) : 0 ≤ qtrunc x := by
  unfold qtrunc
  rw [if_pos h]
  exact Int.floor_nonneg.mpr h

lemma qtrunc_le_int (x : ℚ) (n : Int) (h : x ≤ (n : ℚ)) : qtrunc x ≤ n := by
  unfold qtrunc
  split
  · exact (Int.floor_intCast (α := ℚ) n) ▸ Int.floor_le_floor h
  · exact Int.ceil_le.mpr h

lemma longMax_cast_nonneg : (0 : ℚ) ≤ (LONG_MAX : ℚ) := by
  have h : (0 : Int) ≤ LONG_MAX := by decide
  exact_mod_cast h

lemma clampLong_bounds (x : EDouble) :
    0 ≤ longOfEDouble (EDouble.fmin (EDouble.fin (LONG_MAX : ℚ))
        (EDouble.fmax (EDouble.fin 0) x)) ∧
      longOfEDouble (EDouble.fmin (EDouble.fin (LONG_MAX : ℚ))
        (EDouble.fmax (EDouble.fin 0) x)) ≤ LONG_MAX := by
  cases x with
  | fin q =>
    simp only [EDouble.fmax, EDouble.fmin, longOfEDouble]
    exact ⟨qtrunc_nonneg (le_min longMax_cast_nonneg (le_max_left 0 q)),
      qtrunc_le_int _ _ (min_le_left _ _)⟩
  | posInf =>
    simp only [EDouble.fmax, EDouble.fmin, longOfEDouble]
    exact ⟨qtrunc_nonneg longMax_cast_nonneg, qtrunc_le_int _ _ le_rfl⟩
  | negInf =>
    simp only [EDouble.fmax, EDouble.fmin, longOfEDouble]
    exact ⟨qtrunc_nonneg (le_min longMax_cast_nonneg le_rfl),
      qtrunc_le_int _ _ (min_le_left _ _)⟩
  | nan =>
    simp only [EDouble.fmax, EDouble.fmin, longOfEDouble]
    exact ⟨qtrunc_nonneg (le_min longMax_cast_nonneg le_rfl),
      qtrunc_le_int _ _ (min_le_left _ _)⟩

lemma endOfWorldCalc_nonneg (t : Int) (u : Universe) : 0 ≤ endOfWorldCalc t u := by
  unfold endOfWorldCalc
  exact (clampLong_bounds _).1

lemma endOfWorldCalc_le (t : Int) (u : Universe) : endOfWorldCalc t u ≤ LONG_MAX := by
  unfold endOfWorldCalc
  exact (clampLong_bounds _).2

lemma createConsciousEntity_success (g : God) (u : Universe) (nm : String)
    (h : nm.length < MAX_NAME_LENGTH) :
    createConsciousEntity (some g) u (some nm) = (grownUniverse u nm, some (newEntity u nm)) := by
  simp [createConsciousEntity, grownUniverse, newEntity, Nat.not_le.mpr h]

lemma idList_succ (n : Nat) : idList (n + 1) = idList n ++ [(n : Int) + 1] := by
  simp [idList, List.range_succ]

lemma appendNames_ids (g : God) (names : List String) :
    ∀ (u : Universe) (n : Nat),
      (∀ nm ∈ names, nm.length < MAX_NAME_LENGTH) →
      u.numEntities = (n : Int) →
      (u.consciousEntities.map fun e => e.uniqueId) = idList n →
      ((appendNames g u names).consciousEntities.map fun e => e.uniqueId) =
        idList (n + names.length) := by
  induction names with
  | nil =>
    intro u n _ _ hids
    simpa [appendNames] using hids
  | cons nm rest ih =>
    intro u n hval hnum hids
    have hlen : nm.length < MAX_NAME_LENGTH := hval nm (by simp)
    have hgoal : appendNames g u (nm :: rest) =
        appendNames g (createConsciousEntity (some g) u (some nm)).1 rest := rfl
    rw [hgoal, createConsciousEntity_success g u nm hlen]
    have hnum2 : (grownUniverse u nm).numEntities = ((n + 1 : Nat) : Int) := by
      simp [grownUniverse, hnum]
    have hids2 : ((grownUniverse u nm).consciousEntities.map fun e => e.uniqueId) =
        idList (n + 1) := by
      simp [grownUniverse, newEntity, hids, hnum, idList_succ]
    have hrec := ih (grownUniverse u nm) (n + 1) (fun s hs => hval s (by simp [hs])) hnum2 hids2
    have harith : n + (nm :: rest).length = n + 1 + rest.length := by
      simp [List.length_cons]
      omega
    rw [harith]
    exact hrec

/-- C1: for every valid World State (its `numConstants` field matching its
constants array), the Intervene transition (`divineMiracle`) returns a new
state whose `entropyLevel` is the source's times 0.9, whose entity
registry is empty, and whose every other field — `creationTime`,
`totalLifespanDays`, `maxEntropy`, `numConstants`, the constants sequence,
and the placeholder blocks — equals the source's; the source itself is a
pure value here, so no field of it is mutated. -/
theorem intervene_copies_and_scales (u : Universe) (t : Option TimePoint)
    (hvalid : u.numConstants = (u.physicalConstants.length : Int)) :
    divineMiracle (some u) t =
      some { u with entropyLevel := u.entropyLevel * (9 / 10),
                    consciousEntities := [], numEntities := 0 } := by
  have htake : u.physicalConstants.take u.numConstants.toNat = u.physicalConstants := by
    rw [hvalid]
    simp
  simp [divineMiracle, divineMiracleCopy, htake]

/-- Witness for C1: Intervene on a freshly created universe. -/
theorem intervene_copies_witness :
    divineMiracle (some (divineCreateUniverse 0)) none =
      some { divineCreateUniverse 0 with
             entropyLevel := (divineCreateUniverse 0).entropyLevel * (9 / 10),
             consciousEntities := [], numEntities := 0 } :=
  intervene_copies_and_scales (divineCreateUniverse 0) none (by simp [divineCreateUniverse])

/-- C2: for every World State with `entropyLevel ∈ [0, maxEntropy]` and a
non-negative entity count (and any finite constants), the Terminal-Time
Calculator returns a value that is non-negative and at most `LONG_MAX`. -/
theorem terminalTime_bounded (t : Int) (u : Universe)
    (h0 : 0 ≤ u.entropyLevel) (h1 : u.entropyLevel ≤ u.maxEntropy) (h2 : 0 ≤ u.numEntities) :
    0 ≤ calculateEndOfWorld t (some u) ∧ calculateEndOfWorld t (some u) ≤ LONG_MAX :=
  ⟨endOfWorldCalc_nonneg t u, endOfWorldCalc_le t u⟩

/-- Witness for C2: the bounds at a freshly created universe. -/
theorem terminalTime_bounded_witness :
    0 ≤ calculateEndOfWorld 0 (some (divineCreateUniverse 0)) ∧
      calculateEndOfWorld 0 (some (divineCreateUniverse 0)) ≤ LONG_MAX :=
  terminalTime_bounded 0 (divineCreateUniverse 0) (by decide) (by decide) (by decide)

/-- C3: for every World State, non-null entity, and message,
RespondToPetition returns a state whose `totalLifespanDays` is the
source's plus 1 and whose `entropyLevel` is the source's times 0.9 times
0.99 when the message contains `"guide me"`, and times 0.9 otherwise. -/
theorem petition_updates_lifespan_entropy (e : ConsciousEntity) (msg : String) (u : Universe) :
    ∃ w, divinePrayerResponse (some e) (some msg) (some u) = some w ∧
      w.totalLifespanDays = u.totalLifespanDays + 1 ∧
      w.entropyLevel = (if strstrHit msg "guide me" then
          u.entropyLevel * (9 / 10) * (99 / 100)
        else u.entropyLevel * (9 / 10)) := by
  unfold divinePrayerResponse divineMiracle
  cases hg : strstrHit msg "guide me" <;>
    simp [hg, divineMiracleCopy]

/-- Counterexample to C4 as stated: an EMPTY (non-null) message is not
rejected — `divinePrayerResponse` with the empty string still produces a
new state, because the source only NULL-checks the pointer and never
tests for emptiness. -/
theorem petition_accepts_empty_message_cex :
    (divinePrayerResponse (some entity0) (some "") (some (divineCreateUniverse 0))).isSome = true := by
  decide

/-- C4 amended: RespondToPetition fails (produces no state) exactly when
the World State, the requesting entity, or the message is absent (null);
an empty but non-null message is accepted. -/
theorem petition_nullcheck_iff (pe : Option ConsciousEntity) (pr : Option String)
    (pu : Option Universe) :
    divinePrayerResponse pe pr pu = none ↔ pe = none ∨ pr = none ∨ pu = none := by
  cases pe <;> cases pr <;> cases pu <;>
    simp [divinePrayerResponse, divineMiracle] <;> split <;> simp

/-- Witness for C4 amended: a null entity makes the petition fail. -/
theorem petition_nullcheck_witness :
    divinePrayerResponse none (some "please guide me") (some (divineCreateUniverse 0)) = none :=
  (petition_nullcheck_iff _ _ _).mpr (Or.inl rfl)

/-- C5: for every World State, the Complete transition returns a state
whose `entropyLevel` equals its own `maxEntropy` exactly. -/
theorem completion_saturates_entropy (u : Universe) :
    ∃ w, divineCompletion (some u) = some w ∧ w.entropyLevel = w.maxEntropy :=
  ⟨_, rfl, rfl⟩

/-- C6: for every `n > 0` the Constant Table Generator returns a sequence
of length exactly `n` whose cells 0–3 hold 299792458.0, 6.62607015e-34,
6.67430e-11 and 8.8541878128e-12 in that order and whose cell `i ≥ 4`
holds `1/(i+1)`; for every `n ≤ 0` it fails. -/
theorem constantTable_spec (n : Int) :
    (0 < n → ∃ cs, divinePhysicalConstants n = some cs ∧ (cs.length : Int) = n ∧
      (∀ (i : Nat) (hi : i < cs.length),
        cs[i] = if i = 0 then 299792458
          else if i = 1 then 662607015 / 10 ^ 42
          else if i = 2 then 667430 / 10 ^ 16
          else if i = 3 then 88541878128 / 10 ^ 22
          else 1 / ((i : ℚ) + 1))) ∧
    (n ≤ 0 → divinePhysicalConstants n = none) := by
  constructor
  · intro hpos
    refine ⟨(List.range n.toNat).map constAt, ?_, ?_, ?_⟩
    · unfold divinePhysicalConstants
      rw [if_neg (not_le.mpr hpos)]
    · simp [Int.toNat_of_nonneg hpos.le]
    · intro i hi
      simp only [List.length_map, List.length_range] at hi
      simp [constAt]
  · intro hneg
    unfold divinePhysicalConstants
    rw [if_pos hneg]

/-- Witness for C6: the table of size 5 and the rejection of −1. -/
theorem constantTable_witness :
    (∃ cs, divinePhysicalConstants 5 = some cs ∧ (cs.length : Int) = 5 ∧
      (∀ (i : Nat) (hi : i < cs.length),
        cs[i] = if i = 0 then 299792458
          else if i = 1 then 662607015 / 10 ^ 42
          else if i = 2 then 667430 / 10 ^ 16
          else if i = 3 then 88541878128 / 10 ^ 22
          else 1 / ((i : ℚ) + 1))) ∧
    divinePhysicalConstants (-1) = none :=
  ⟨(constantTable_spec 5).1 (by decide), (constantTable_spec (-1)).2 (by decide)⟩

/-- Counterexample to C7 as stated: on a state with `maxEntropy = 0` the
Terminal-Time Calculator does not fail — the source has no
division-by-zero check and unconditionally computes and returns a numeric
`long`.  At this input `1.0 / 0.0 = +inf`, the combination
`10 × (1 − inf) − 0 × inf + 0` is NaN (because `0 × inf` is NaN), and
`fmax(0.0, NaN)` clamps it to `0.0`, so the returned value is 0. -/
theorem terminalTime_zero_maxEntropy_cex :
    calculateEndOfWorld 0 (some zeroMaxEntropyUniverse) = 0 := by decide

/-- C7 amended: for every World State with `maxEntropy = 0` the
Terminal-Time Calculator does not fail: it never produces the −1 sentinel
(reserved for a null state) and still returns a numeric result within
`[0, LONG_MAX]`. -/
theorem terminalTime_total_zero_maxEntropy (t : Int) (u : Universe)
    (h : u.maxEntropy = 0) :
    calculateEndOfWorld t (some u) ≠ -1 ∧ 0 ≤ calculateEndOfWorld t (some u) ∧
      calculateEndOfWorld t (some u) ≤ LONG_MAX := by
  refine ⟨?_, endOfWorldCalc_nonneg t u, endOfWorldCalc_le t u⟩
  have hn : (0 : Int) ≤ endOfWorldCalc t u := endOfWorldCalc_nonneg t u
  intro hEq
  rw [show calculateEndOfWorld t (some u) = endOfWorldCalc t u from rfl] at hEq
  omega

/-- Witness for C7 amended: the degenerate `maxEntropy = 0` universe. -/
theorem terminalTime_total_witness :
    calculateEndOfWorld 0 (some zeroMaxEntropyUniverse) ≠ -1 ∧
      0 ≤ calculateEndOfWorld 0 (some zeroMaxEntropyUniverse) ∧
      calculateEndOfWorld 0 (some zeroMaxEntropyUniverse) ≤ LONG_MAX :=
  terminalTime_total_zero_maxEntropy 0 zeroMaxEntropyUniverse rfl

/-- Counterexample to C8 as stated: an EMPTY (non-null) name is not
rejected — `createConsciousEntity` with the empty string succeeds, because
the source only checks `strlen(name) >= MAX_NAME_LENGTH` and nullity,
never emptiness. -/
theorem append_accepts_empty_name_cex :
    (createConsciousEntity (some createGod) (divineCreateUniverse 0) (some "")).2.isSome = true := by
  decide

/-- C8 amended: Entity Registry append fails when the supplied name is
null or has length at or above the 256-character bound (for example a
300-character name), and in every such failure the owning World State is
returned unchanged; an empty name is NOT rejected. -/
theorem append_rejects_null_or_long_names (g : God) (u : Universe) (nm : Option String)
    (h : nm = none ∨ ∃ s, nm = some s ∧ MAX_NAME_LENGTH ≤ s.length) :
    createConsciousEntity (some g) u nm = (u, none) := by
  rcases h with h | ⟨s, rfl, hs⟩
  · subst h; rfl
  · simp [createConsciousEntity, if_pos hs]

set_option maxRecDepth 8000 in
/-- Witness for C8 amended: a 300-character name is rejected and the
registry is unchanged. -/
theorem append_rejects_witness :
    createConsciousEntity (some createGod) (divineCreateUniverse 0) (some longName) =
      (divineCreateUniverse 0, none) :=
  append_rejects_null_or_long_names createGod (divineCreateUniverse 0) (some longName)
    (Or.inr ⟨longName, rfl, by decide⟩)

/-- C9: appending any sequence of (valid-length) names to a fresh World
State yields the ids `1..k` in append order, and in general every
successful append assigns id `numEntities + 1`. -/
theorem sequential_ids (g : God) (u : Universe) (names : List String)
    (hfresh : u.numEntities = 0 ∧ u.consciousEntities = [])
    (hval : ∀ nm ∈ names, nm.length < MAX_NAME_LENGTH) :
    (((appendNames g u names).consciousEntities.map fun e => e.uniqueId) =
        idList names.length) ∧
    (∀ (w : Universe) (nm : String) (e : ConsciousEntity),
      (createConsciousEntity (some g) w (some nm)).2 = some e →
      e.uniqueId = w.numEntities + 1) := by
  constructor
  · have hmain := appendNames_ids g names u 0 hval (by simp [hfresh.1]) (by simp [hfresh.2, idList])
    simpa using hmain
  · intro w nm e he
    by_cases hlen : MAX_NAME_LENGTH ≤ nm.length
    · simp [createConsciousEntity, hlen] at he
    · rw [createConsciousEntity_success g w nm (Nat.not_le.mp hlen)] at he
      simp at he
      rw [← he]
      rfl

/-- Witness for C9: two appends to a fresh universe yield ids [1, 2]. -/
theorem sequential_ids_witness :
    ((appendNames createGod (divineCreateUniverse 0) ["Human1", "Human2"]).consciousEntities.map
      fun e => e.uniqueId) = idList 2 :=
  (sequential_ids createGod (divineCreateUniverse 0) ["Human1", "Human2"]
    ⟨rfl, rfl⟩ (by decide)).1

/-- C10: Entity Registry append requires a non-null creator handle: with
a null creator it returns no entity and leaves the World State unchanged,
for every target state and every name (valid or not). -/
theorem append_requires_creator (u : Universe) (nm : Option String) :
    createConsciousEntity none u nm = (u, none) := rfl
